import Mathlib

/-!
Verification development for `generate-sb-efi` (`src/generate_sb_efi/generate_sb_efi.py`).

The Python program discovers kernel images, resolves their companion files
(initramfs variants, microcode), assembles a single-file EFI executable with
`objcopy`, signs it with `sbsign`, and deploys the signed artifacts.

Shallow embedding conventions:
* file contents are byte lists (`Bytes`); text files are tagged separately;
* the filesystem is a map from path strings to optional contents (`FS`);
* external process execution is an oracle `Exec : List String → ProcResult`;
* Python exceptions become an error type `PyError` and `Except` results;
* side effects (file writes, spawned commands, printed output, file copies)
  are collected in a `Trace` value returned alongside the result of each step;
* `pathlib.Path` values are plain strings; `Path.name` / `Path.parent` /
  the `/` join operator are modelled by `pathName` / `pathParent` / `pathJoin`.
-/

abbrev Bytes := List Nat

/-- Contents written to a file: Python text mode vs binary mode. -/
inductive FileData where
  | text (s : String)
  | bin (b : Bytes)
deriving DecidableEq

/-- Result of `subprocess.run(command, capture_output=True)`. -/
structure ProcResult where
  returncode : Int
  stdout : Bytes
  stderr : Bytes
deriving DecidableEq

/-- Python exceptions raised by the program: the builtin `FileNotFoundError`
and `TypeError`, and the custom `SubprocessError` class of the script. -/
inductive PyError where
  | fileNotFound (msg : String)
  | typeError (msg : String)
  | subprocessError (msg : String)
deriving DecidableEq

/-- One `print(...)` call: a plain line, an echoed command list, or a captured
output stream (printed after decoding; we record the raw stream). -/
inductive PrintItem where
  | line (s : String)
  | cmdEcho (c : List String)
  | stream (b : Bytes)
deriving DecidableEq

/-- The filesystem at resolution/build time: path to optional contents. -/
abbrev FS := String → Option Bytes

/-- Oracle giving, for each spawned command, the process result. -/
abbrev Exec := List String → ProcResult

/-- Accumulated side effects of a pipeline fragment. -/
structure Trace where
  writes : List (String × FileData)
  cmds : List (List String)
  prints : List PrintItem
  copies : List (String × String)

/-- The empty trace. -/
def Trace.nil : Trace := ⟨[], [], [], []⟩

/-- Sequential composition of traces. -/
def Trace.app (a b : Trace) : Trace :=
  ⟨a.writes ++ b.writes, a.cmds ++ b.cmds, a.prints ++ b.prints, a.copies ++ b.copies⟩

/-- The pathlib slash join, for the non-degenerate relative names this program uses. -/
def pathJoin (a b : String) : String := a ++ "/" ++ b

/-- `Path.name`: the component after the last slash. -/
def pathName (p : String) : String :=
  String.mk ((p.data.reverse.takeWhile (fun c => c != '/')).reverse)

/-- `Path.parent`: the part before the last slash (`.` when there is none).
When the `dropWhile` result is nonempty its head is necessarily the last
slash, so the parent is everything before it. -/
def pathParent (p : String) : String :=
  match p.data.reverse.dropWhile (fun c => c != '/') with
  | _ :: rest => String.mk rest.reverse
  | [] => "."

/-- The configuration section `[source]` consumed by `Kernel.__init__`:
`prefix`, `cmdline`, optional `initramfs` and `ucode` entries, the
`use_fallback` flag and the optional `copydir`. -/
structure Config where
  kernelPfx : String
  cmdline : String
  initramfsPfx : Option String
  ucode_name : Option String
  use_fallback : Bool
  copydir : Option String

/-- `Kernel.extract_version`: `self.kernel_name[len(self.prefix)::]` —
drop `len(prefix)` leading characters of the file name, unconditionally. -/
def extract_version (pfx kernel_name : String) : String :=
  String.mk (kernel_name.data.drop pfx.data.length)

/-- The loop in `Kernel.find_initramfs`: the first listed file that does not
exist on disk (the loop raises at the first missing one). -/
def firstMissing (fs : FS) : List String → Option String
  | [] => none
  | p :: ps => if (fs p).isSome then firstMissing fs ps else some p

/-- `Kernel.find_initramfs`: locate the initramfs file of each variant suffix
and the microcode, raising `FileNotFoundError` for the first absent file.
Returns the variant-suffix-to-path mapping (the dict comprehension) and the
resolved microcode path. -/
def find_initramfs (cfg : Config) (kernel_path version : String)
    (initramfs_types : List String) (fs : FS) :
    Except PyError (Option (String → String) × Option String) :=
  let step1 : Except PyError (Option (String → String)) :=
    match cfg.initramfsPfx with
    | none => .ok none
    | some ipfx =>
      let m : String → String := fun suffix =>
        pathJoin (pathParent kernel_path) (ipfx ++ version ++ suffix ++ ".img")
      match firstMissing fs (initramfs_types.map m) with
      | some miss => .error (.fileNotFound ("Initramfs " ++ miss ++ " doesn\x27t exist."))
      | none => .ok (some m)
  match step1 with
  | .error e => .error e
  | .ok ini =>
    match cfg.ucode_name with
    | none => .ok (ini, none)
    | some un =>
      let up := pathJoin (pathParent kernel_path) un
      if (fs up).isSome then .ok (ini, some up)
      else .error (.fileNotFound ("Microcode " ++ up ++ " doesn\x27t exist."))

/-- The resolved kernel descriptor: the attributes `Kernel.__init__` leaves
on a successfully constructed instance. -/
structure Kernel where
  cfg : Config
  key_path : String
  crt_path : String
  path : String
  kernel_name : String
  version : String
  initramfs : Option (String → String)
  ucode : Option String
  initramfs_types : List String

/-- `Kernel.__init__`: record the configuration, derive the key pair paths
from the key prefix, then `extract_version` and `find_initramfs`.  Any raise
propagates; no partially constructed descriptor is returned. -/
def Kernel.init (cfg : Config) ( key_prefix kernel_path : String)
    (initramfs_types : List String) (fs : FS) : Except PyError Kernel :=
  let kernel_name := pathName kernel_path
  let version := extract_version cfg.kernelPfx kernel_name
  match find_initramfs cfg kernel_path version initramfs_types fs with
  | .error e => .error e
  | .ok (ini, uc) =>
    .ok { cfg := cfg, key_path := key_prefix ++ ".key", crt_path := key_prefix ++ ".crt",
          path := kernel_path, kernel_name := kernel_name, version := version,
          initramfs := ini, ucode := uc, initramfs_types := initramfs_types }

/-- The output of `subrun`: the commands it spawned (exactly one), what it printed,
and either the process result or the raised `SubprocessError`. -/
structure SubrunOut where
  ran : List (List String)
  prints : List PrintItem
  result : Except PyError ProcResult

/-- `subrun(command, expected_return=0, print_failure=True)`: run the command
capturing output; on an unexpected return code, print the command and both
captured streams (when `print_failure`) and raise `SubprocessError`. -/
def subrun (exec : Exec) (command : List String) (expected_return : Int)
    (print_failure : Bool) : SubrunOut :=
  let result := exec command
  if result.returncode ≠ expected_return then
    { ran := [command],
      prints := if print_failure then
          [.line "==> Command:", .cmdEcho command, .line "==> Output:", .stream result.stdout,
           .line "==> Error:", .stream result.stderr]
        else [],
      result := .error (.subprocessError
        ("There was an error with the " ++ command.headD "" ++ " operation.")) }
  else
    { ran := [command], prints := [], result := .ok result }

/-- The working directory of a kernel: `builddir / self.version`. -/
def Kernel.builddirOf (k : Kernel) (buildRoot : String) : String :=
  pathJoin buildRoot k.version

/-- The inner `extract_initramfs` of `Kernel.build`: look up the variant path in
`self.initramfs` (a `TypeError`, `NoneType` is not subscriptable, when that
attribute is `None`), then write the `zcat` stdout (when an initramfs prefix
is configured) followed by the raw microcode bytes (when configured) to
`builddir/initramfs{variant}`.  The `zcat` return code is never inspected. -/
def Kernel.extract_initramfs (k : Kernel) (builddir : String) (fs : FS) (exec : Exec)
    (initramfs_type : String) : Trace × Except PyError Unit :=
  match k.initramfs with
  | none => (Trace.nil, .error (.typeError "NoneType object is not subscriptable"))
  | some m =>
    let initramfs_path := m initramfs_type
    let filePath := pathJoin builddir ("initramfs" ++ initramfs_type)
    let (zcmds, body) : List (List String) × Bytes :=
      match k.cfg.initramfsPfx with
      | some _ => ([["zcat", initramfs_path]], (exec ["zcat", initramfs_path]).stdout)
      | none => ([], [])
    match k.ucode with
    | none => (⟨[(filePath, .bin body)], zcmds, [], []⟩, .ok ())
    | some u =>
      match fs u with
      | some ub => (⟨[(filePath, .bin (body ++ ub))], zcmds, [], []⟩, .ok ())
      | none =>
        -- opening the microcode file raises after the initramfs body was written
        (⟨[(filePath, .bin body)], zcmds, [], []⟩,
         .error (.fileNotFound ("No such file or directory: " ++ u)))

/-- The `add_section` helper inside `assemble_single_file`. -/
def add_section (sec file_name offset : String) : List String :=
  ["--add-section", sec ++ "=" ++ file_name,
   "--change-section-vma", sec ++ "=" ++ offset]

/-- The `sections` list inside `assemble_single_file`: name, content file,
virtual-memory offset. -/
def Kernel.sections (k : Kernel) (builddir initramfs_type : String) :
    List (String × String × String) :=
  [(".osrel", "/etc/os-release", "0x20000"),
   (".cmdline", pathJoin builddir "cmdline.txt", "0x30000"),
   (".linux", k.path, "0x40000"),
   (".initrd", pathJoin builddir ("initramfs" ++ initramfs_type), "0x3000000")]

/-- The unsigned output path stored in the target dict: the working directory
joined with the kernel file name followed directly by the variant tag. -/
def Kernel.targetPath (k : Kernel) (builddir initramfs_type : String) : String :=
  pathJoin builddir (k.kernel_name ++ initramfs_type)

/-- The signed output path stored in the result dict: the parent of the target
path joined with the target file name plus `.signed.efi`. -/
def Kernel.resultPath (k : Kernel) (builddir initramfs_type : String) : String :=
  pathJoin (pathParent (k.targetPath builddir initramfs_type))
    (pathName (k.targetPath builddir initramfs_type) ++ ".signed.efi")

/-- The `objcopy` command built by `assemble_single_file`: the folded
section arguments, the fixed boot stub path, and the output path last. -/
def objcopyCmd (k : Kernel) (builddir initramfs_type : String) : List String :=
  ["objcopy"] ++
    ((k.sections builddir initramfs_type).foldl
      (fun acc s => acc ++ add_section s.1 s.2.1 s.2.2) []) ++
    ["/usr/lib/systemd/boot/efi/linuxx64.efi.stub", k.targetPath builddir initramfs_type]

/-- The `sbsign` command built by `assemble_single_file`. -/
def sbsignCmd (k : Kernel) (builddir initramfs_type : String) : List String :=
  ["sbsign", "--key", k.key_path, "--cert", k.crt_path,
   "--output", k.resultPath builddir initramfs_type, k.targetPath builddir initramfs_type]

/-- The pair of paths `assemble_single_file` records for one variant. -/
structure BuildVariant where
  target : String
  result : String
deriving DecidableEq

/-- The inner `assemble_single_file` of `Kernel.build`: run `objcopy` then `sbsign`
through `subrun` (each failure aborts), then print the confirmation line. -/
def Kernel.assemble_single_file (k : Kernel) (builddir : String) (exec : Exec)
    (initramfs_type : String) : Trace × Except PyError BuildVariant :=
  let cmd1 := objcopyCmd k builddir initramfs_type
  let o1 := subrun exec cmd1 0 true
  match o1.result with
  | .error e => (⟨[], o1.ran, o1.prints, []⟩, .error e)
  | .ok _ =>
    let cmd2 := sbsignCmd k builddir initramfs_type
    let o2 := subrun exec cmd2 0 true
    match o2.result with
    | .error e => (⟨[], o1.ran ++ o2.ran, o1.prints ++ o2.prints, []⟩, .error e)
    | .ok _ =>
      (⟨[], o1.ran ++ o2.ran,
        o1.prints ++ o2.prints ++
          [.line ("Signed " ++ pathName (k.resultPath builddir initramfs_type) ++ "!")], []⟩,
       .ok ⟨k.targetPath builddir initramfs_type, k.resultPath builddir initramfs_type⟩)

/-- The `for initramfs_type in self.initramfs_types` loop in `Kernel.build`:
per variant, `extract_initramfs` then `assemble_single_file`; the first raise
aborts the loop, keeping the side effects performed so far. -/
def Kernel.buildLoop (k : Kernel) (builddir : String) (fs : FS) (exec : Exec) :
    List String → Trace × Except PyError (List (String × BuildVariant))
  | [] => (Trace.nil, .ok [])
  | t :: ts =>
    let s1 := k.extract_initramfs builddir fs exec t
    match s1.2 with
    | .error e => (s1.1, .error e)
    | .ok _ =>
      let s2 := k.assemble_single_file builddir exec t
      match s2.2 with
      | .error e => (Trace.app s1.1 s2.1, .error e)
      | .ok bv =>
        let s3 := k.buildLoop builddir fs exec ts
        (Trace.app s1.1 (Trace.app s2.1 s3.1),
         match s3.2 with
         | .error e => .error e
         | .ok rest => .ok ((t, bv) :: rest))

/-- `Kernel.build`: create the working directory, write `cmdline.txt` once
(the command line plus a trailing newline), then process every variant. -/
def Kernel.build (k : Kernel) (buildRoot : String) (fs : FS) (exec : Exec) :
    Trace × Except PyError (List (String × BuildVariant)) :=
  let builddir := k.builddirOf buildRoot
  let l := k.buildLoop builddir fs exec k.initramfs_types
  (⟨(pathJoin builddir "cmdline.txt", .text (k.cfg.cmdline ++ "\n")) :: l.1.writes,
    l.1.cmds, l.1.prints, l.1.copies⟩, l.2)

/-- The Python `in` operator on strings (substring containment). -/
def listIn (pat : List Char) : List Char → Bool
  | [] => pat.isEmpty
  | c :: rest => pat.isPrefixOf (c :: rest) || listIn pat rest

/-- Tests of the form `fallback in initramfs_type` (substring membership). -/
def pyIn (pat s : String) : Bool := listIn pat.data s.data

/-- The `for initramfs_type in self.initramfs_types` loop in `Kernel.write`:
copy the signed artifact to `copydir` (when configured) under the unsigned
name plus `.signed`, then — unless the variant contains `fallback` and
`use_fallback` is off — copy it to the target directory under the unsigned
artifact own file name.  `target` and `result` are the per-variant dicts filled
in by `Kernel.build`. -/
def Kernel.writeLoop (k : Kernel) (target result : String → String) (targetdir : String) :
    List String → Trace
  | [] => Trace.nil
  | t :: ts =>
    let archivePart : Trace :=
      match k.cfg.copydir with
      | some d =>
        let signed_name := pathName (target t) ++ ".signed"
        ⟨[], [], [.line ("Copied " ++ signed_name ++ " to " ++ d ++ "!")],
         [(result t, pathJoin d signed_name)]⟩
      | none => Trace.nil
    let deployPart : Trace :=
      if pyIn "fallback" t && !k.cfg.use_fallback then Trace.nil
      else
        ⟨[], [], [.line ("Copied " ++ pathName (target t) ++ "!")],
         [(result t, pathJoin targetdir (pathName (target t)))]⟩
    Trace.app archivePart (Trace.app deployPart (k.writeLoop target result targetdir ts))

/-- `Kernel.write`: deploy every variant according to the fallback policy. -/
def Kernel.write (k : Kernel) (target result : String → String) (targetdir : String) : Trace :=
  k.writeLoop target result targetdir k.initramfs_types

/-- `Kernel.write` as called by `cli`, reading the per-variant dicts that
`Kernel.build` returned. -/
def Kernel.writeFromOuts (k : Kernel) (outs : List (String × BuildVariant))
    (targetdir : String) : Trace :=
  k.write (fun t => ((outs.lookup t).map (fun bv => bv.target)).getD "")
    (fun t => ((outs.lookup t).map (fun bv => bv.result)).getD "") targetdir

/-- The kernel-descriptor list comprehension in `cli`: constructing a `Kernel`
for every discovered path; the first raise aborts the whole comprehension. -/
def resolveKernels (cfg : Config) ( key_prefix : String) (initramfs_types : List String)
    (fs : FS) : List String → Except PyError (List Kernel)
  | [] => .ok []
  | p :: ps =>
    match Kernel.init cfg key_prefix p initramfs_types fs with
    | .error e => .error e
    | .ok k =>
      match resolveKernels cfg key_prefix initramfs_types fs ps with
      | .error e => .error e
      | .ok ks => .ok (k :: ks)

/-- The `[kernel.build(builddir) for kernel in kernels]` comprehension:
build every kernel in order; the first raise aborts the rest. -/
def buildAll (buildRoot : String) (fs : FS) (exec : Exec) :
    List Kernel → Trace × Except PyError (List (Kernel × List (String × BuildVariant)))
  | [] => (Trace.nil, .ok [])
  | k :: ks =>
    let b := k.build buildRoot fs exec
    match b.2 with
    | .error e => (b.1, .error e)
    | .ok outs =>
      let rest := buildAll buildRoot fs exec ks
      (Trace.app b.1 rest.1,
       match rest.2 with
       | .error e => .error e
       | .ok l => .ok ((k, outs) :: l))

/-- The `[kernel.write(targetdir) for kernel in kernels]` comprehension. -/
def writeAll (targetdir : String) : List (Kernel × List (String × BuildVariant)) → Trace
  | [] => Trace.nil
  | (k, outs) :: rest => Trace.app (k.writeFromOuts outs targetdir) (writeAll targetdir rest)

/-- The core of `cli`: resolve every discovered kernel path, then build all,
then deploy all.  Resolution happens for every kernel before any build step
runs, so a resolution failure leaves an empty side-effect trace. -/
def runAll (cfg : Config) ( key_prefix : String) (initramfs_types : List String)
    (fs : FS) (exec : Exec) (kernel_paths : List String)
    (buildRoot targetdir : String) : Trace × Except PyError Unit :=
  match resolveKernels cfg key_prefix initramfs_types fs kernel_paths with
  | .error e => (Trace.nil, .error e)
  | .ok ks =>
    let b := buildAll buildRoot fs exec ks
    match b.2 with
    | .error e => (b.1, .error e)
    | .ok built => (Trace.app b.1 (writeAll targetdir built), .ok ())

/-- The version field of a successfully resolved descriptor, if any. -/
def versionOf : Except PyError Kernel → Option String
  | .ok k => some k.version
  | .error _ => none

/-- The resolution error names the exact path of a companion file that is
absent from the filesystem. -/
def missingCompanionMsg (fs : FS) (e : PyError) : Prop :=
  ∃ miss, fs miss = none ∧
    (e = .fileNotFound ("Initramfs " ++ miss ++ " doesn\x27t exist.") ∨
     e = .fileNotFound ("Microcode " ++ miss ++ " doesn\x27t exist."))

/-- No descriptor is observable from this resolution outcome. -/
def noDescriptor : Except PyError Kernel → Prop
  | .ok _ => False
  | .error _ => True

/-- A run outcome that failed with an error naming a missing companion path. -/
def failsNamingMissing (fs : FS) : Except PyError Unit → Prop
  | .ok _ => False
  | .error e => missingCompanionMsg fs e

/-- A configuration with neither initramfs prefix nor microcode configured. -/
def cfgPlain : Config :=
  { kernelPfx := "vmlinuz-", cmdline := "quiet", initramfsPfx := none,
    ucode_name := none, use_fallback := false, copydir := none }

/-- The initramfs variant-to-path map of the concrete scenario kernel. -/
def initramfsMapW : String → String := fun suffix =>
  pathJoin "/boot" ("initramfs-" ++ "6.1.0" ++ suffix ++ ".img")

/-- A concrete resolved kernel (the scenario given in the spec: `vmlinuz-6.1.0`
with prefix `vmlinuz-`, initramfs prefix `initramfs-`, microcode
`intel-ucode.img`), used to instantiate theorems with hypotheses. -/
def kernelW : Kernel :=
  { cfg := { kernelPfx := "vmlinuz-", cmdline := "root=/dev/sda1 quiet",
             initramfsPfx := some "initramfs-", ucode_name := some "intel-ucode.img",
             use_fallback := false, copydir := some "/efi/copies" },
    key_path := "/etc/keys/db.key", crt_path := "/etc/keys/db.crt",
    path := "/boot/vmlinuz-6.1.0", kernel_name := "vmlinuz-6.1.0", version := "6.1.0",
    initramfs := some initramfsMapW,
    ucode := some (pathJoin "/boot" "intel-ucode.img"),
    initramfs_types := ["", "-fallback"] }

/-- A concrete kernel resolved with neither initramfs nor microcode
configured (so `initramfs` is `None`). -/
def kernelNoIni : Kernel :=
  { cfg := cfgPlain,
    key_path := "/etc/keys/db.key", crt_path := "/etc/keys/db.crt",
    path := "/boot/vmlinuz-6.1.0", kernel_name := "vmlinuz-6.1.0", version := "6.1.0",
    initramfs := none, ucode := none, initramfs_types := ["", "-fallback"] }

/-- A filesystem with no files at all. -/
def fsEmpty : FS := fun _ => none

/-- A filesystem holding only the concrete scenario microcode file. -/
def fsW : FS := fun q =>
  if q = pathJoin "/boot" "intel-ucode.img" then some [9, 9] else none

/-- An oracle under which every command succeeds silently. -/
def execOk : Exec := fun _ => ⟨0, [], []⟩

/-- An oracle under which every command fails with exit status 1. -/
def execFail : Exec := fun _ => ⟨1, [7], [8]⟩

/-- An oracle under which every command exits with status 3 after emitting
two bytes on stdout. -/
def execZcatFail : Exec := fun _ => ⟨3, [5, 6], [1]⟩

@[simp] theorem Trace.app_writes (a b : Trace) : (Trace.app a b).writes = a.writes ++ b.writes := rfl

@[simp] theorem Trace.app_cmds (a b : Trace) : (Trace.app a b).cmds = a.cmds ++ b.cmds := rfl

@[simp] theorem Trace.app_prints (a b : Trace) : (Trace.app a b).prints = a.prints ++ b.prints := rfl

@[simp] theorem Trace.app_copies (a b : Trace) : (Trace.app a b).copies = a.copies ++ b.copies := rfl

/-- `takeWhile` over a list whose elements all satisfy the predicate,
followed by one that does not, keeps exactly the first part. -/
theorem takeWhile_middle (p : Char → Bool) (l : List Char) (x : Char) (r : List Char)
    (hl : ∀ c ∈ l, p c = true) (hx : p x = false) :
    (l ++ x :: r).takeWhile p = l := by
  induction l with
  | nil => simp [List.takeWhile_cons, hx]
  | cons c cs ih =>
    have hc := hl c (List.mem_cons_self c cs)
    simp only [List.cons_append, List.takeWhile_cons, hc, if_pos]
    exact congrArg (c :: ·) (ih (fun d hd => hl d (List.mem_cons_of_mem c hd)))

/-- `dropWhile` over a list whose elements all satisfy the predicate,
followed by one that does not, drops exactly the first part. -/
theorem dropWhile_middle (p : Char → Bool) (l : List Char) (x : Char) (r : List Char)
    (hl : ∀ c ∈ l, p c = true) (hx : p x = false) :
    (l ++ x :: r).dropWhile p = x :: r := by
  induction l with
  | nil => simp [List.dropWhile_cons, hx]
  | cons c cs ih =>
    have hc := hl c (List.mem_cons_self c cs)
    simp only [List.cons_append, List.dropWhile_cons, hc, if_pos]
    exact ih (fun d hd => hl d (List.mem_cons_of_mem c hd))

/-- The character data of a joined path. -/
theorem data_pathJoin (a b : String) : (pathJoin a b).data = a.data ++ '/' :: b.data := by
  rw [show (pathJoin a b).data = a.data ++ ['/'] ++ b.data from rfl, List.append_assoc]
  rfl

/-- The reversed character data of a joined path. -/
theorem reverse_data_pathJoin (a b : String) :
    (pathJoin a b).data.reverse = b.data.reverse ++ '/' :: a.data.reverse := by
  rw [data_pathJoin, List.reverse_append, List.reverse_cons, List.append_assoc]
  rfl

/-- `Path.name` of a join whose last component has no slash. -/
theorem pathName_join (a b : String) (h : '/' ∉ b.data) : pathName (pathJoin a b) = b := by
  have htw : ((pathJoin a b).data.reverse.takeWhile (fun c => c != '/')) = b.data.reverse := by
    rw [reverse_data_pathJoin]
    exact takeWhile_middle _ _ _ _
      (fun c hc => bne_iff_ne.mpr (fun hceq => h (hceq ▸ List.mem_reverse.mp hc)))
      (by simp)
  unfold pathName
  rw [htw, List.reverse_reverse]

/-- `Path.parent` of a join whose last component has no slash. -/
theorem pathParent_join (a b : String) (h : '/' ∉ b.data) : pathParent (pathJoin a b) = a := by
  have hdw : ((pathJoin a b).data.reverse.dropWhile (fun c => c != '/')) = '/' :: a.data.reverse := by
    rw [reverse_data_pathJoin]
    exact dropWhile_middle _ _ _ _
      (fun c hc => bne_iff_ne.mpr (fun hceq => h (hceq ▸ List.mem_reverse.mp hc)))
      (by simp)
  unfold pathParent
  rw [hdw]
  show String.mk a.data.reverse.reverse = a
  rw [List.reverse_reverse]

/-- C7: For every kernel file name of the form `{prefix}{version}` with the
configured prefix, `extract_version` yields exactly `{version}`, with no
prefix remnants. -/
theorem version_extraction_exact (pfx v : String) : extract_version pfx (pfx ++ v) = v := by
  unfold extract_version
  rw [show (pfx ++ v).data = pfx.data ++ v.data from rfl, List.drop_left]

/-- C10: The resolver never validates that the file name starts with the
configured prefix: for any path (matching or not), with no initramfs prefix
and no microcode configured, resolution succeeds and the version is the file
name with exactly `len(prefix)` leading characters removed — arbitrary, and
possibly empty, for a non-matching name; no naming error exists. -/
theorem version_no_validation (cfg : Config) ( key_prefix kernel_path : String)
    (initramfs_types : List String) (fs : FS)
    (h1 : cfg.initramfsPfx = none) (h2 : cfg.ucode_name = none) :
    versionOf (Kernel.init cfg key_prefix kernel_path initramfs_types fs) =
      some (String.mk ((pathName kernel_path).data.drop cfg.kernelPfx.data.length)) := by
  unfold Kernel.init find_initramfs
  rw [h1, h2]
  rfl

/-- C10 witness: the non-matching name `System.map` resolves without error to
the junk version `"ap"` (the name minus its first eight characters). -/
theorem version_no_validation_witness :
    versionOf (Kernel.init cfgPlain "/etc/keys/db" "/boot/System.map" ["", "-fallback"]
      fsEmpty) = some "ap" :=
  (version_no_validation cfgPlain "/etc/keys/db" "/boot/System.map" ["", "-fallback"]
    fsEmpty rfl rfl).trans (by decide)

/-- The signed path is the unsigned path plus the fixed `.signed.efi` suffix
(the `parent`/`name` round trip collapses when the file name is slash-free). -/
theorem resultPath_suffix (k : Kernel) (builddir initramfs_type : String)
    (h : '/' ∉ (k.kernel_name ++ initramfs_type).data) :
    k.resultPath builddir initramfs_type =
      k.targetPath builddir initramfs_type ++ ".signed.efi" := by
  unfold Kernel.resultPath
  rw [show k.targetPath builddir initramfs_type =
        pathJoin builddir (k.kernel_name ++ initramfs_type) from rfl,
      pathParent_join _ _ h, pathName_join _ _ h]
  unfold pathJoin
  simp [String.append_assoc]

/-- C4: the unsigned output path is `workingDir/{kernelFileName}{variantTag}`
(tag concatenated directly, no separator), and the signed output path is the
unsigned path with the fixed suffix `.signed.efi` appended — deterministic,
so re-runs map to the same names. -/
theorem output_naming (k : Kernel) (builddir initramfs_type : String)
    (h : '/' ∉ (k.kernel_name ++ initramfs_type).data) :
    k.targetPath builddir initramfs_type =
      pathJoin builddir (k.kernel_name ++ initramfs_type) ∧
    k.resultPath builddir initramfs_type =
      k.targetPath builddir initramfs_type ++ ".signed.efi" :=
  ⟨rfl, resultPath_suffix k builddir initramfs_type h⟩

/-- C4 witness: concrete fallback-variant names for `kernelW`. -/
theorem output_naming_witness :
    kernelW.targetPath "/var/build/6.1.0" "-fallback" =
      pathJoin "/var/build/6.1.0" (kernelW.kernel_name ++ "-fallback") ∧
    kernelW.resultPath "/var/build/6.1.0" "-fallback" =
      kernelW.targetPath "/var/build/6.1.0" "-fallback" ++ ".signed.efi" :=
  output_naming kernelW "/var/build/6.1.0" "-fallback" (by decide)

/-- `subrun` spawns its command exactly once, in every outcome. -/
theorem subrun_ran (exec : Exec) (command : List String) (expected_return : Int)
    (print_failure : Bool) :
    (subrun exec command expected_return print_failure).ran = [command] := by
  by_cases h : (exec command).returncode ≠ expected_return <;> simp [subrun, h]

/-- The commands `assemble_single_file` spawns: the `objcopy` command, then
the `sbsign` command unless `objcopy` already failed. -/
theorem assemble_cmds (k : Kernel) (builddir : String) (exec : Exec) (initramfs_type : String) :
    (k.assemble_single_file builddir exec initramfs_type).1.cmds =
      [objcopyCmd k builddir initramfs_type] ∨
    (k.assemble_single_file builddir exec initramfs_type).1.cmds =
      [objcopyCmd k builddir initramfs_type, sbsignCmd k builddir initramfs_type] := by
  cases h1 : (subrun exec (objcopyCmd k builddir initramfs_type) 0 true).result with
  | error e =>
    left
    simp [Kernel.assemble_single_file, h1, subrun_ran]
  | ok r =>
    cases h2 : (subrun exec (sbsignCmd k builddir initramfs_type) 0 true).result with
    | error e =>
      right
      simp [Kernel.assemble_single_file, h1, h2, subrun_ran]
    | ok r2 =>
      right
      simp [Kernel.assemble_single_file, h1, h2, subrun_ran]

/-- C3: among the commands spawned for a kernel-variant, the section-embedding
tool appears exactly once, with `--add-section {name}={file}` and
`--change-section-vma {name}={offset}` pairs for `.osrel`, `.cmdline`,
`.linux`, `.initrd` in that order at the fixed offsets `0x20000`, `0x30000`,
`0x40000`, `0x3000000`, then the fixed boot-stub template path, then the
output path as the final positional argument. -/
theorem embed_command_exact (k : Kernel) (builddir initramfs_type : String) (exec : Exec) :
    ((k.assemble_single_file builddir exec initramfs_type).1.cmds).filter
        (fun c => c.headD "" == "objcopy") =
      [["objcopy",
        "--add-section", ".osrel=/etc/os-release",
        "--change-section-vma", ".osrel=0x20000",
        "--add-section", ".cmdline=" ++ pathJoin builddir "cmdline.txt",
        "--change-section-vma", ".cmdline=0x30000",
        "--add-section", ".linux=" ++ k.path,
        "--change-section-vma", ".linux=0x40000",
        "--add-section", ".initrd=" ++ pathJoin builddir ("initramfs" ++ initramfs_type),
        "--change-section-vma", ".initrd=0x3000000",
        "/usr/lib/systemd/boot/efi/linuxx64.efi.stub",
        k.targetPath builddir initramfs_type]] := by
  have hob : objcopyCmd k builddir initramfs_type =
      ["objcopy",
       "--add-section", ".osrel=/etc/os-release",
       "--change-section-vma", ".osrel=0x20000",
       "--add-section", ".cmdline=" ++ pathJoin builddir "cmdline.txt",
       "--change-section-vma", ".cmdline=0x30000",
       "--add-section", ".linux=" ++ k.path,
       "--change-section-vma", ".linux=0x40000",
       "--add-section", ".initrd=" ++ pathJoin builddir ("initramfs" ++ initramfs_type),
       "--change-section-vma", ".initrd=0x3000000",
       "/usr/lib/systemd/boot/efi/linuxx64.efi.stub",
       k.targetPath builddir initramfs_type] := rfl
  have hpredo : (((objcopyCmd k builddir initramfs_type).headD "" == "objcopy") : Bool) = true := rfl
  have hpreds : ¬ ((sbsignCmd k builddir initramfs_type).head?.getD "" = "objcopy") := by
    intro hc
    exact absurd (show ("sbsign" : String) = "objcopy" from hc) (by decide)
  rcases assemble_cmds k builddir exec initramfs_type with h | h <;>
    rw [h] <;> simp [List.filter_cons, hpredo, hpreds, hob]

/-- C6: a non-zero (unexpected) exit status makes `subrun` print the failing
command and both captured output streams and raise `SubprocessError`, after
spawning the command exactly once (no retry); through `assemble_single_file`
a failing section-embedding invocation fails the kernel-variant pipeline with
that `SubprocessError`. -/
theorem subprocess_failure (exec : Exec) (command : List String) (expected_return : Int)
    (k : Kernel) (builddir initramfs_type : String)
    (hne : (exec command).returncode ≠ expected_return)
    (hob : (exec (objcopyCmd k builddir initramfs_type)).returncode ≠ 0) :
    subrun exec command expected_return true =
      { ran := [command],
        prints := [.line "==> Command:", .cmdEcho command, .line "==> Output:",
                   .stream (exec command).stdout, .line "==> Error:",
                   .stream (exec command).stderr],
        result := .error (.subprocessError
          ("There was an error with the " ++ command.headD "" ++ " operation.")) } ∧
    (k.assemble_single_file builddir exec initramfs_type).2 =
      .error (.subprocessError "There was an error with the objcopy operation.") := by
  constructor
  · simp [subrun, hne]
  · have h1 : (subrun exec (objcopyCmd k builddir initramfs_type) 0 true).result =
        .error (.subprocessError "There was an error with the objcopy operation.") := by
      simp [subrun, hob]
      rfl
    simp [Kernel.assemble_single_file, h1]

/-- C6 witness: under the all-failing oracle, `subrun` on a sample command
prints the diagnostics and errors, and the assembly pipeline for the concrete
primary variant of the concrete kernel fails with `SubprocessError`. -/
theorem subprocess_failure_witness :
    subrun execFail ["zcat", "/boot/initramfs-6.1.0.img"] 0 true =
      { ran := [["zcat", "/boot/initramfs-6.1.0.img"]],
        prints := [.line "==> Command:", .cmdEcho ["zcat", "/boot/initramfs-6.1.0.img"],
                   .line "==> Output:", .stream [7], .line "==> Error:", .stream [8]],
        result := .error (.subprocessError "There was an error with the zcat operation.") } ∧
    (kernelW.assemble_single_file "/var/build/6.1.0" execFail "").2 =
      .error (.subprocessError "There was an error with the objcopy operation.") :=
  subprocess_failure execFail ["zcat", "/boot/initramfs-6.1.0.img"] 0 kernelW
    "/var/build/6.1.0" "" (by decide) (by decide)

/-- C9: the exit status of the decompression tool is never checked — whatever the
return code of the `zcat` invocation, `extract_initramfs` raises no error and
writes the captured stdout bytes followed by the microcode bytes as the
composed blob (contrast `subrun`, which the embedding and signing tools go
through). -/
theorem zcat_status_unchecked (k : Kernel) (builddir : String) (fs : FS) (exec : Exec)
    (initramfs_type : String) (m : String → String) (ipfx u : String) (ub : Bytes) (rc : Int)
    (hm : k.initramfs = some m) (hp : k.cfg.initramfsPfx = some ipfx)
    (hu : k.ucode = some u) (hf : fs u = some ub)
    (hrc : (exec ["zcat", m initramfs_type]).returncode = rc) :
    k.extract_initramfs builddir fs exec initramfs_type =
      (⟨[(pathJoin builddir ("initramfs" ++ initramfs_type),
          .bin ((exec ["zcat", m initramfs_type]).stdout ++ ub))],
        [["zcat", m initramfs_type]], [], []⟩, .ok ()) := by
  simp [Kernel.extract_initramfs, hm, hp, hu, hf]

/-- C9 witness: with the oracle exiting with status 3 and stdout `[5, 6]`,
the composed primary blob of the concrete kernel is `[5, 6] ++ [9, 9]` and the
step reports no error. -/
theorem zcat_status_unchecked_witness :
    kernelW.extract_initramfs "/var/build/6.1.0" fsW execZcatFail "" =
      (⟨[(pathJoin "/var/build/6.1.0" ("initramfs" ++ ""), .bin [5, 6, 9, 9])],
        [["zcat", initramfsMapW ""]], [], []⟩, .ok ()) :=
  zcat_status_unchecked kernelW "/var/build/6.1.0" fsW execZcatFail "" initramfsMapW
    "initramfs-" (pathJoin "/boot" "intel-ucode.img") [9, 9] 3 rfl rfl rfl (by decide) rfl

/-- C1 (failing case): for a kernel with no initramfs prefix configured
(`self.initramfs is None`) and a nonempty variant list, `Kernel.build` does
not produce empty initramfs blobs — it raises `TypeError` at the very first
variant (the unconditional `self.initramfs[initramfs_type]` subscript), after
having written only `cmdline.txt`; no initramfs file, not even an empty one,
is created, no command is spawned, and the build result is an error. -/
theorem initramfs_unconfigured_build_raises (k : Kernel) (buildRoot : String) (fs : FS)
    (exec : Exec) (t : String) (ts : List String)
    (hini : k.initramfs = none) (hty : k.initramfs_types = t :: ts) :
    k.build buildRoot fs exec =
      (⟨[(pathJoin (pathJoin buildRoot k.version) "cmdline.txt",
          .text (k.cfg.cmdline ++ "\n"))], [], [], []⟩,
       .error (.typeError "NoneType object is not subscriptable")) := by
  simp [Kernel.build, Kernel.builddirOf, hty, Kernel.buildLoop, Kernel.extract_initramfs,
    hini, Trace.nil, pathJoin]

/-- C1 witness: the concrete initramfs-less kernel: only `cmdline.txt` is
written, then `TypeError` aborts the build. -/
theorem initramfs_unconfigured_build_raises_witness :
    kernelNoIni.build "/var/build" fsEmpty execOk =
      (⟨[("/var/build/6.1.0/cmdline.txt", .text "quiet\n")], [], [], []⟩,
       .error (.typeError "NoneType object is not subscriptable")) :=
  initramfs_unconfigured_build_raises kernelNoIni "/var/build" fsEmpty execOk
    "" ["-fallback"] rfl rfl

/-- The initramfs blob file of a variant never collides with `cmdline.txt`
(their names differ at the first character). -/
theorem initramfs_file_ne_cmdline (b t : String) :
    pathJoin b ("initramfs" ++ t) ≠ pathJoin b "cmdline.txt" := by
  intro h
  have h2 := congrArg String.data h
  rw [data_pathJoin, data_pathJoin] at h2
  have h3 := List.append_cancel_left h2
  have h4 : ("initramfs" ++ t).data = ("cmdline.txt" : String).data := by
    exact (List.cons.injEq _ _ _ _).mp h3 |>.2
  have h5 : 'i' :: (("nitramfs" : String).data ++ t.data) = ("cmdline.txt" : String).data := h4
  simp at h5

/-- Every file `extract_initramfs` writes is the initramfs blob of the variant. -/
theorem extract_writes_paths (k : Kernel) (builddir : String) (fs : FS) (exec : Exec)
    (t : String) :
    ∀ w ∈ (k.extract_initramfs builddir fs exec t).1.writes,
      w.1 = pathJoin builddir ("initramfs" ++ t) := by
  cases hki : k.initramfs with
  | none => simp [Kernel.extract_initramfs, hki, Trace.nil]
  | some m =>
    cases hpfx : k.cfg.initramfsPfx with
    | none =>
      cases huc : k.ucode with
      | none => simp [Kernel.extract_initramfs, hki, hpfx, huc]
      | some u =>
        cases hfu : fs u with
        | none => simp [Kernel.extract_initramfs, hki, hpfx, huc, hfu]
        | some ub => simp [Kernel.extract_initramfs, hki, hpfx, huc, hfu]
    | some ipfx =>
      cases huc : k.ucode with
      | none => simp [Kernel.extract_initramfs, hki, hpfx, huc]
      | some u =>
        cases hfu : fs u with
        | none => simp [Kernel.extract_initramfs, hki, hpfx, huc, hfu]
        | some ub => simp [Kernel.extract_initramfs, hki, hpfx, huc, hfu]

/-- `assemble_single_file` writes no files itself. -/
theorem assemble_writes_nil (k : Kernel) (builddir : String) (exec : Exec)
    (initramfs_type : String) :
    (k.assemble_single_file builddir exec initramfs_type).1.writes = [] := by
  cases h1 : (subrun exec (objcopyCmd k builddir initramfs_type) 0 true).result with
  | error e => simp [Kernel.assemble_single_file, h1]
  | ok r =>
    cases h2 : (subrun exec (sbsignCmd k builddir initramfs_type) 0 true).result with
    | error e => simp [Kernel.assemble_single_file, h1, h2]
    | ok r2 => simp [Kernel.assemble_single_file, h1, h2]

/-- The variant loop of `Kernel.build` never writes to `cmdline.txt`. -/
theorem buildLoop_no_cmdline (k : Kernel) (builddir : String) (fs : FS) (exec : Exec)
    (ts : List String) :
    ((k.buildLoop builddir fs exec ts).1.writes.filter
      (fun w => w.1 == pathJoin builddir "cmdline.txt")) = [] := by
  induction ts with
  | nil => rfl
  | cons t ts ih =>
    have hex : ((k.extract_initramfs builddir fs exec t).1.writes.filter
        (fun w => w.1 == pathJoin builddir "cmdline.txt")) = [] := by
      rw [List.filter_eq_nil_iff]
      intro w hw
      have := extract_writes_paths k builddir fs exec t w hw
      simp [this, initramfs_file_ne_cmdline builddir t]
    cases h1 : (k.extract_initramfs builddir fs exec t).2 with
    | error e => simp only [Kernel.buildLoop, h1]; exact hex
    | ok u =>
      cases h2 : (k.assemble_single_file builddir exec t).2 with
      | error e =>
        simp only [Kernel.buildLoop, h1, h2, Trace.app_writes, List.filter_append]
        rw [hex, assemble_writes_nil]
        rfl
      | ok bv =>
        simp only [Kernel.buildLoop, h1, h2, Trace.app_writes, List.filter_append]
        rw [hex, assemble_writes_nil]
        simp [ih]

/-- C8: `Kernel.build` writes exactly the configured command line followed by
a single newline to `cmdline.txt` in the kernel working directory, exactly
once per kernel — the variant loop contributes no further write to it. -/
theorem cmdline_written_once (k : Kernel) (buildRoot : String) (fs : FS) (exec : Exec) :
    ((k.build buildRoot fs exec).1.writes.filter
      (fun w => w.1 == pathJoin (k.builddirOf buildRoot) "cmdline.txt")) =
    [(pathJoin (k.builddirOf buildRoot) "cmdline.txt", .text (k.cfg.cmdline ++ "\n"))] := by
  show ((pathJoin (k.builddirOf buildRoot) "cmdline.txt", FileData.text (k.cfg.cmdline ++ "\n")) ::
      (k.buildLoop (k.builddirOf buildRoot) fs exec k.initramfs_types).1.writes).filter
      (fun w => w.1 == pathJoin (k.builddirOf buildRoot) "cmdline.txt") = _
  rw [List.filter_cons]
  simp only [beq_self_eq_true, if_pos]
  rw [buildLoop_no_cmdline]

/-- A path reported by `firstMissing` is indeed absent. -/
theorem firstMissing_none (fs : FS) (ps : List String) (miss : String)
    (h : firstMissing fs ps = some miss) : fs miss = none := by
  induction ps with
  | nil => simp [firstMissing] at h
  | cons p ps ih =>
    by_cases hp : (fs p).isSome
    · rw [firstMissing, if_pos hp] at h
      exact ih h
    · rw [firstMissing, if_neg hp] at h
      obtain rfl := Option.some.inj h
      cases hfp : fs p with
      | none => rfl
      | some v => rw [hfp] at hp; simp at hp

/-- A `find_initramfs` failure names the exact missing companion path. -/
theorem find_err_names (cfg : Config) (kernel_path version : String)
    (initramfs_types : List String) (fs : FS) (e : PyError)
    (h : find_initramfs cfg kernel_path version initramfs_types fs = .error e) :
    missingCompanionMsg fs e := by
  unfold find_initramfs at h
  cases hpfx : cfg.initramfsPfx with
  | none =>
    simp only [hpfx] at h
    cases hun : cfg.ucode_name with
    | none => simp [hun] at h
    | some un =>
      simp only [hun] at h
      by_cases hup : (fs (pathJoin (pathParent kernel_path) un)).isSome
      · simp [hup] at h
      · simp only [hup, Bool.false_eq_true, if_false, Except.error.injEq] at h
        refine ⟨pathJoin (pathParent kernel_path) un, ?_, Or.inr h.symm⟩
        cases hv : fs (pathJoin (pathParent kernel_path) un) with
        | none => rfl
        | some v => rw [hv] at hup; simp at hup
  | some ipfx =>
    simp only [hpfx] at h
    cases hfm : firstMissing fs (initramfs_types.map (fun suffix =>
        pathJoin (pathParent kernel_path) (ipfx ++ version ++ suffix ++ ".img"))) with
    | some miss =>
      simp only [hfm, Except.error.injEq] at h
      exact ⟨miss, firstMissing_none fs _ miss hfm, Or.inl h.symm⟩
    | none =>
      simp only [hfm] at h
      cases hun : cfg.ucode_name with
      | none => simp [hun] at h
      | some un =>
        simp only [hun] at h
        by_cases hup : (fs (pathJoin (pathParent kernel_path) un)).isSome
        · simp [hup] at h
        · simp only [hup, Bool.false_eq_true, if_false, Except.error.injEq] at h
          refine ⟨pathJoin (pathParent kernel_path) un, ?_, Or.inr h.symm⟩
          cases hv : fs (pathJoin (pathParent kernel_path) un) with
          | none => rfl
          | some v => rw [hv] at hup; simp at hup

/-- A `Kernel.__init__` failure names the exact missing companion path. -/
theorem init_err_names (cfg : Config) ( key_prefix kernel_path : String)
    (initramfs_types : List String) (fs : FS) (e : PyError)
    (h : Kernel.init cfg key_prefix kernel_path initramfs_types fs = .error e) :
    missingCompanionMsg fs e := by
  simp only [Kernel.init] at h
  cases hf : find_initramfs cfg kernel_path
      (extract_version cfg.kernelPfx (pathName kernel_path)) initramfs_types fs with
  | error e0 =>
    simp only [hf, Except.error.injEq] at h
    exact h ▸ find_err_names cfg kernel_path _ initramfs_types fs e0 hf
  | ok pair =>
    rw [hf] at h
    cases pair
    simp at h

/-- A failing resolution of any listed kernel is a failing resolution of the
whole kernel list comprehension. -/
theorem resolve_mem_error (cfg : Config) ( key_prefix : String)
    (initramfs_types : List String) (fs : FS) (paths : List String) (p : String) (e : PyError)
    (hmem : p ∈ paths)
    (he : Kernel.init cfg key_prefix p initramfs_types fs = .error e) :
    ∃ e2, resolveKernels cfg key_prefix initramfs_types fs paths = .error e2 := by
  induction paths with
  | nil => cases hmem
  | cons q qs ih =>
    cases hi : Kernel.init cfg key_prefix q initramfs_types fs with
    | error e0 => exact ⟨e0, by simp [resolveKernels, hi]⟩
    | ok k =>
      have hq : p ∈ qs := by
        rcases List.mem_cons.mp hmem with rfl | hq
        · rw [hi] at he; simp at he
        · exact hq
      obtain ⟨e2, hr⟩ := ih hq
      exact ⟨e2, by simp [resolveKernels, hi, hr]⟩

/-- The error of a failing kernel list comprehension names a missing path. -/
theorem resolve_err_names (cfg : Config) ( key_prefix : String)
    (initramfs_types : List String) (fs : FS) (paths : List String) (e : PyError)
    (h : resolveKernels cfg key_prefix initramfs_types fs paths = .error e) :
    missingCompanionMsg fs e := by
  induction paths with
  | nil => simp [resolveKernels] at h
  | cons q qs ih =>
    cases hi : Kernel.init cfg key_prefix q initramfs_types fs with
    | error e0 =>
      simp only [resolveKernels, hi, Except.error.injEq] at h
      exact h ▸ init_err_names cfg key_prefix q initramfs_types fs e0 hi
    | ok k =>
      simp only [resolveKernels, hi] at h
      cases hr : resolveKernels cfg key_prefix initramfs_types fs qs with
      | error e2 =>
        simp only [hr, Except.error.injEq] at h
        exact ih (h ▸ hr)
      | ok ks => simp [hr] at h

/-- C2: if a required initramfs variant or a configured microcode file of any
discovered kernel is absent at resolution time, resolution fails with a
`FileNotFoundError` whose message names the exact missing path, no descriptor
is observable for that kernel, and the whole run aborts before any build step
with an empty side-effect trace (zero files written, zero commands spawned,
zero copies) and an error naming a missing companion path. -/
theorem missing_companion_aborts (cfg : Config) ( key_prefix : String)
    (initramfs_types : List String) (fs : FS) (exec : Exec) (paths : List String)
    (p : String) (e : PyError) (buildRoot targetdir : String)
    (hmem : p ∈ paths)
    (he : Kernel.init cfg key_prefix p initramfs_types fs = .error e) :
    missingCompanionMsg fs e ∧
    noDescriptor (Kernel.init cfg key_prefix p initramfs_types fs) ∧
    (runAll cfg key_prefix initramfs_types fs exec paths buildRoot targetdir).1 = Trace.nil ∧
    failsNamingMissing fs
      (runAll cfg key_prefix initramfs_types fs exec paths buildRoot targetdir).2 := by
  obtain ⟨e2, hr⟩ :=
    resolve_mem_error cfg key_prefix initramfs_types fs paths p e hmem he
  refine ⟨init_err_names cfg key_prefix p initramfs_types fs e he, ?_, ?_, ?_⟩
  · rw [he]; trivial
  · unfold runAll; rw [hr]
  · unfold runAll; rw [hr]
    exact resolve_err_names cfg key_prefix initramfs_types fs paths e2 hr

/-- C2 witness: with an empty filesystem, the scenario kernel has its
primary initramfs missing; resolution fails naming
`/boot/initramfs-6.1.0.img` and the run performs no side effect. -/
theorem missing_companion_aborts_witness :
    missingCompanionMsg fsEmpty
      (.fileNotFound "Initramfs /boot/initramfs-6.1.0.img doesn\x27t exist.") ∧
    noDescriptor (Kernel.init kernelW.cfg "/etc/keys/db" "/boot/vmlinuz-6.1.0"
      ["", "-fallback"] fsEmpty) ∧
    (runAll kernelW.cfg "/etc/keys/db" ["", "-fallback"] fsEmpty execOk
      ["/boot/vmlinuz-6.1.0"] "/var/build" "/efi/EFI/Linux").1 = Trace.nil ∧
    failsNamingMissing fsEmpty
      (runAll kernelW.cfg "/etc/keys/db" ["", "-fallback"] fsEmpty execOk
        ["/boot/vmlinuz-6.1.0"] "/var/build" "/efi/EFI/Linux").2 :=
  missing_companion_aborts kernelW.cfg "/etc/keys/db" ["", "-fallback"] fsEmpty execOk
    ["/boot/vmlinuz-6.1.0"] "/boot/vmlinuz-6.1.0"
    (.fileNotFound "Initramfs /boot/initramfs-6.1.0.img doesn\x27t exist.")
    "/var/build" "/efi/EFI/Linux" (by decide) rfl

/-- A string ending in `-fallback` never equals one ending in `.signed`
(their last characters differ). -/
theorem ne_fallback_signed (a b : String) : a ++ "-fallback" ≠ b ++ ".signed" := by
  intro h
  have h1 : (a ++ "-fallback").data.reverse.head? = some 'k' := by
    rw [show (a ++ "-fallback").data = a.data ++ ("-fallback" : String).data from rfl,
        List.reverse_append]
    rfl
  have h2 : (b ++ ".signed").data.reverse.head? = some 'd' := by
    rw [show (b ++ ".signed").data = b.data ++ (".signed" : String).data from rfl,
        List.reverse_append]
    rfl
  rw [h, h2] at h1
  exact absurd h1 (by decide)

/-- The two variant tags produce unsigned (hence signed) paths of different
lengths, so their artifacts never alias. -/
theorem resultPath_tag_ne (k : Kernel) (builddir : String)
    (hkn : '/' ∉ k.kernel_name.data) :
    k.resultPath builddir "" ≠ k.resultPath builddir "-fallback" := by
  have hkn0 : '/' ∉ (k.kernel_name ++ "").data := by
    rw [String.append_empty]; exact hkn
  have hkn1 : '/' ∉ (k.kernel_name ++ "-fallback").data := by
    intro hmem
    rcases List.mem_append.mp hmem with h1 | h2
    · exact hkn h1
    · exact absurd h2 (by decide)
  intro h
  rw [resultPath_suffix k builddir "" hkn0, resultPath_suffix k builddir "-fallback" hkn1] at h
  have hl := congrArg String.length h
  simp only [String.length_append, Kernel.targetPath, pathJoin] at hl
  have l1 : ("" : String).length = 0 := rfl
  have l2 : ("-fallback" : String).length = 9 := rfl
  rw [l1, l2] at hl
  omega

/-- C5: with the default variant pair and fallback deployment disabled, the
deployment of a kernel copies exactly three files — the primary signed
artifact to the archive directory (as `{unsignedName}.signed`) and to the
target directory (as the unsigned name), and the fallback signed artifact
to the archive directory only; in particular the fallback artifact is never
copied into the target directory, while the primary always is. -/
theorem deploy_fallback_policy (k : Kernel) (builddir targetdir d : String)
    (hty : k.initramfs_types = ["", "-fallback"])
    (hkn : '/' ∉ k.kernel_name.data)
    (hfb : k.cfg.use_fallback = false)
    (hcd : k.cfg.copydir = some d) :
    (k.write (k.targetPath builddir) (k.resultPath builddir) targetdir).copies =
      [(k.resultPath builddir "", pathJoin d (k.kernel_name ++ ".signed")),
       (k.resultPath builddir "", pathJoin targetdir k.kernel_name),
       (k.resultPath builddir "-fallback",
        pathJoin d (k.kernel_name ++ "-fallback" ++ ".signed"))] ∧
    (k.resultPath builddir "-fallback", pathJoin targetdir (k.kernel_name ++ "-fallback")) ∉
      (k.write (k.targetPath builddir) (k.resultPath builddir) targetdir).copies ∧
    (k.resultPath builddir "", pathJoin targetdir k.kernel_name) ∈
      (k.write (k.targetPath builddir) (k.resultPath builddir) targetdir).copies ∧
    (k.resultPath builddir "-fallback",
     pathJoin d (k.kernel_name ++ "-fallback" ++ ".signed")) ∈
      (k.write (k.targetPath builddir) (k.resultPath builddir) targetdir).copies := by
  have hkn0 : k.kernel_name ++ "" = k.kernel_name := String.append_empty _
  have hkn1 : '/' ∉ (k.kernel_name ++ "-fallback").data := by
    intro hmem
    rcases List.mem_append.mp hmem with h1 | h2
    · exact hkn h1
    · exact absurd h2 (by decide)
  have hn0 : pathName (k.targetPath builddir "") = k.kernel_name := by
    rw [Kernel.targetPath, hkn0]
    exact pathName_join _ _ hkn
  have hn1 : pathName (k.targetPath builddir "-fallback") = k.kernel_name ++ "-fallback" := by
    rw [Kernel.targetPath]
    exact pathName_join _ _ hkn1
  have hp0 : pyIn "fallback" "" = false := rfl
  have hp1 : pyIn "fallback" "-fallback" = true := by decide
  have hcopies : (k.write (k.targetPath builddir) (k.resultPath builddir) targetdir).copies =
      [(k.resultPath builddir "", pathJoin d (k.kernel_name ++ ".signed")),
       (k.resultPath builddir "", pathJoin targetdir k.kernel_name),
       (k.resultPath builddir "-fallback",
        pathJoin d (k.kernel_name ++ "-fallback" ++ ".signed"))] := by
    unfold Kernel.write
    rw [hty]
    simp [Kernel.writeLoop, hcd, hfb, hp0, hp1, hn0, hn1, Trace.app, Trace.nil]
  refine ⟨hcopies, ?_, ?_, ?_⟩
  · rw [hcopies]
    intro hmem
    have hsrc_ne : k.resultPath builddir "-fallback" ≠ k.resultPath builddir "" :=
      fun hh => resultPath_tag_ne k builddir hkn hh.symm
    have hdst_ne : pathJoin targetdir (k.kernel_name ++ "-fallback") ≠
        pathJoin d (k.kernel_name ++ "-fallback" ++ ".signed") := by
      have e1 : pathJoin targetdir (k.kernel_name ++ "-fallback") =
          (targetdir ++ "/" ++ k.kernel_name) ++ "-fallback" := by
        simp [pathJoin, String.append_assoc]
      have e2 : pathJoin d (k.kernel_name ++ "-fallback" ++ ".signed") =
          (d ++ "/" ++ (k.kernel_name ++ "-fallback")) ++ ".signed" := by
        simp [pathJoin, String.append_assoc]
      rw [e1, e2]
      exact ne_fallback_signed _ _
    rcases List.mem_cons.mp hmem with h1 | hmem
    · exact hsrc_ne (congrArg Prod.fst h1)
    rcases List.mem_cons.mp hmem with h2 | hmem
    · exact hsrc_ne (congrArg Prod.fst h2)
    rcases List.mem_cons.mp hmem with h3 | hmem
    · exact hdst_ne (congrArg Prod.snd h3)
    · cases hmem
  · rw [hcopies]; simp
  · rw [hcopies]; simp

/-- C5 witness: the concrete scenario kernel with fallback deployment off
and archive directory `/efi/copies`. -/
theorem deploy_fallback_policy_witness :
    (kernelW.write (kernelW.targetPath "/var/build/6.1.0")
        (kernelW.resultPath "/var/build/6.1.0") "/efi/EFI/Linux").copies =
      [(kernelW.resultPath "/var/build/6.1.0" "",
        pathJoin "/efi/copies" (kernelW.kernel_name ++ ".signed")),
       (kernelW.resultPath "/var/build/6.1.0" "",
        pathJoin "/efi/EFI/Linux" kernelW.kernel_name),
       (kernelW.resultPath "/var/build/6.1.0" "-fallback",
        pathJoin "/efi/copies" (kernelW.kernel_name ++ "-fallback" ++ ".signed"))] ∧
    (kernelW.resultPath "/var/build/6.1.0" "-fallback",
     pathJoin "/efi/EFI/Linux" (kernelW.kernel_name ++ "-fallback")) ∉
      (kernelW.write (kernelW.targetPath "/var/build/6.1.0")
        (kernelW.resultPath "/var/build/6.1.0") "/efi/EFI/Linux").copies ∧
    (kernelW.resultPath "/var/build/6.1.0" "",
     pathJoin "/efi/EFI/Linux" kernelW.kernel_name) ∈
      (kernelW.write (kernelW.targetPath "/var/build/6.1.0")
        (kernelW.resultPath "/var/build/6.1.0") "/efi/EFI/Linux").copies ∧
    (kernelW.resultPath "/var/build/6.1.0" "-fallback",
     pathJoin "/efi/copies" (kernelW.kernel_name ++ "-fallback" ++ ".signed")) ∈
      (kernelW.write (kernelW.targetPath "/var/build/6.1.0")
        (kernelW.resultPath "/var/build/6.1.0") "/efi/EFI/Linux").copies :=
  deploy_fallback_policy kernelW "/var/build/6.1.0" "/efi/EFI/Linux" "/efi/copies"
    rfl (by decide) rfl rfl
